import Mathlib

/-
Verification of the resolver adapter in cbits/hs_uv_dns.c.

The adapter is a two-function shim: hs_getaddrinfo delegates to the OS
forward resolver getaddrinfo and hs_getnameinfo delegates to the OS
reverse resolver getnameinfo; each returns the OS-native code passed
through uv__getaddrinfo_translate_error. External OS calls are embedded
as oracle functions, and their observable effects (call log, the cell
pointed to by res, the two caller-supplied text buffers, the count of
live OS allocations) are threaded through an explicit World state.
-/

namespace HsUvDns

/-- Normalized resolver status codes in the library namespace: the fixed
enumeration of resolver outcomes of the spec taxonomy. -/
inductive Status where
  | success
  | nameNotFound
  | serviceNotFound
  | familyNotSupported
  | temporaryFailure
  | bufferTooSmall
  | outOfMemory
  | systemFailure
  deriving DecidableEq

/-- OS-native resolver error codes: the closed enumeration of
distinguishable resolver errors, plus a constructor for any other
platform numeric code. -/
inductive OSCode where
  | ok
  | codeNoName
  | codeService
  | codeFamily
  | codeAgain
  | codeOverflow
  | codeMemory
  | codeFail
  | other (n : Int)
  deriving DecidableEq

/-- Modelled from the spec: the body of uv__getaddrinfo_translate_error is
not under src (hs_uv_dns.c only calls it); per the spec it is a total map
over a closed enumeration of OS-native codes, sending each mapped code to
its one normalized counterpart and every unmapped code to the single
generic system-failure fallback code. -/
def uv__getaddrinfo_translate_error : OSCode → Status
  | .ok => .success
  | .codeNoName => .nameNotFound
  | .codeService => .serviceNotFound
  | .codeFamily => .familyNotSupported
  | .codeAgain => .temporaryFailure
  | .codeOverflow => .bufferTooSmall
  | .codeMemory => .outOfMemory
  | .codeFail => .systemFailure
  | .other _ => .systemFailure

/-- Resolution hints: address family, socket type, protocol and flags. -/
structure Hints where
  family : Int
  socktype : Int
  protocol : Int
  flags : Int
  deriving DecidableEq

/-- A socket address: family tag plus raw bytes. -/
structure SockAddr where
  family : Int
  bytes : List Nat
  deriving DecidableEq

/-- The OS-allocated linked chain of candidate addresses. -/
abbrev AddrChain := List SockAddr

/-- Arguments of a forward resolution call: node and service may be null. -/
structure ForwardQuery where
  node : Option String
  service : Option String
  hints : Option Hints
  deriving DecidableEq

/-- Arguments of a reverse resolution call: address with its length, the
capacities of the two caller buffers, and lookup flags. -/
structure ReverseQuery where
  addr : SockAddr
  addrlen : Nat
  hostCap : Nat
  servCap : Nat
  flags : Int
  deriving DecidableEq

/-- Observable state threaded through the calls: the logs of arguments
handed to the two OS routines, the cell pointed to by res, the caller
memory regions starting at the host and service buffers, and the number
of live OS-allocated chains awaiting release. -/
structure World where
  forwardCalls : List ForwardQuery
  reverseCalls : List ReverseQuery
  resCell : Option AddrChain
  hostMem : List Nat
  servMem : List Nat
  allocs : Nat
  deriving DecidableEq

/-- Oracle for the OS forward resolver: for the given arguments, the
native code it reports and the chain it stores through res (none when it
stores nothing). -/
abbrev ForwardOS := ForwardQuery → OSCode × Option AddrChain

/-- Oracle for the OS reverse resolver: for the given arguments, the
native code it reports and the byte sequences it writes into the host
and service buffers. -/
abbrev ReverseOS := ReverseQuery → OSCode × List Nat × List Nat

/-- The external OS call getaddrinfo: logs the arguments it received,
stores the chain through res, and counts the allocation when a chain was
produced. -/
def getaddrinfo (os : ForwardOS) (w : World) (q : ForwardQuery) :
    OSCode × World :=
  let r := os q
  (r.1, { w with
          forwardCalls := w.forwardCalls ++ [q]
          resCell := r.2
          allocs := w.allocs + (match r.2 with | some _ => 1 | none => 0) })

/-- In-place write of a byte sequence at the start of a memory region:
memory past the written length is untouched. -/
def writeBytes (written : List Nat) (mem : List Nat) : List Nat :=
  written ++ mem.drop written.length

/-- The external OS call getnameinfo: logs the arguments it received and
writes its output bytes in place into the two caller buffers; it
allocates nothing. -/
def getnameinfo (os : ReverseOS) (w : World) (q : ReverseQuery) :
    OSCode × World :=
  let r := os q
  (r.1, { w with
          reverseCalls := w.reverseCalls ++ [q]
          hostMem := writeBytes r.2.1 w.hostMem
          servMem := writeBytes r.2.2 w.servMem })

/-- hs_getaddrinfo from hs_uv_dns.c: err = getaddrinfo(node, service,
hints, res); return translate(err). -/
def hs_getaddrinfo (os : ForwardOS) (w : World) (q : ForwardQuery) :
    Status × World :=
  let r := getaddrinfo os w q
  (uv__getaddrinfo_translate_error r.1, r.2)

/-- hs_getnameinfo from hs_uv_dns.c: err = getnameinfo(addr, addrlen,
host, hostlen, serv, servlen, flags); return translate(err). -/
def hs_getnameinfo (os : ReverseOS) (w : World) (q : ReverseQuery) :
    Status × World :=
  let r := getnameinfo os w q
  (uv__getaddrinfo_translate_error r.1, r.2)

/-- Release of the chain held in the res cell: clears the cell and
retires one live allocation; a no-op when the cell is empty. -/
def freeaddrinfo (w : World) : World :=
  match w.resCell with
  | some _ => { w with resCell := none, allocs := w.allocs - 1 }
  | none => w

/-- Modelled from the spec: the owning handle around the forward result
chain is not under src (only the C shim is); per the spec the chain is
exposed as a scoped-acquisition resource with a single release operation
that runs on every exit path, including error paths. -/
def withAddrInfo {β : Type} (os : ForwardOS) (w : World) (q : ForwardQuery)
    (use : Status → Option AddrChain → β) : β × World :=
  let r := hs_getaddrinfo os w q
  (use r.1 r.2.resCell, freeaddrinfo r.2)

/-- An initial world with empty logs, an empty res cell and four bytes of
caller memory behind each buffer. -/
def wInit : World :=
  ⟨[], [], none, [0, 0, 0, 0], [0, 0, 0, 0], 0⟩

/-- A forward query with null node and null service. -/
def qBoth : ForwardQuery := ⟨none, none, none⟩

/-- A reverse query for a loopback address with capacity 4 buffers. -/
def rqLoop : ReverseQuery := ⟨⟨2, [127, 0, 0, 1]⟩, 4, 4, 4, 0⟩

/-- A reverse query whose host buffer capacity 2 is below the resolved
name length. -/
def rqSmall : ReverseQuery := ⟨⟨2, [127, 0, 0, 1]⟩, 4, 2, 2, 0⟩

/-- A reverse oracle reporting the overflow code and writing within the
stated capacities. -/
def osROverflow : ReverseOS := fun _ => (OSCode.codeOverflow, [108, 0], [0])

/-- Memory past a capacity is untouched by an in-place write that stays
within that capacity. -/
theorem writeBytes_drop (ws m : List Nat) (cap : Nat) (h : ws.length ≤ cap) :
    (writeBytes ws m).drop cap = m.drop cap := by
  unfold writeBytes
  rw [List.drop_append_eq_append_drop]
  rw [List.drop_eq_nil_of_le h, List.nil_append, List.drop_drop]
  rw [Nat.add_sub_cancel' h]

/-- Claim C1: the OS-native-to-normalized mapping shared by both
operations is a total function in which every OS-native code has exactly
one normalized counterpart, and every code not explicitly mapped is sent
to the single generic system-failure fallback code. -/
theorem translate_total_unique_fallback :
    (∀ e : OSCode, ∃! s : Status, uv__getaddrinfo_translate_error e = s) ∧
    (∀ n : Int,
      uv__getaddrinfo_translate_error (OSCode.other n) = Status.systemFailure) :=
  ⟨fun e => ⟨uv__getaddrinfo_translate_error e, rfl, fun _ hs => hs.symm⟩,
   fun _ => rfl⟩

/-- Claim C2: for every input, hs_getaddrinfo hands the query to the OS
resolver exactly once, appending one entry to the call log with no retry,
and returns the normalized translation of that single first outcome. -/
theorem hs_getaddrinfo_once_no_retry (os : ForwardOS) (w : World)
    (q : ForwardQuery) :
    (hs_getaddrinfo os w q).2.forwardCalls = w.forwardCalls ++ [q] ∧
    (hs_getaddrinfo os w q).1 = uv__getaddrinfo_translate_error (os q).1 :=
  ⟨rfl, rfl⟩

/-- Claim C3: forward and reverse resolution factor through the same
translation function: whenever the OS reports the same native code to a
forward call and to a reverse call, the two normalized statuses agree. -/
theorem forward_reverse_share_translation (osF : ForwardOS) (osR : ReverseOS)
    (wf wr : World) (qf : ForwardQuery) (qr : ReverseQuery)
    (h : (osF qf).1 = (osR qr).1) :
    (hs_getaddrinfo osF wf qf).1 = (hs_getnameinfo osR wr qr).1 := by
  have h1 : (hs_getaddrinfo osF wf qf).1
      = uv__getaddrinfo_translate_error (osF qf).1 := rfl
  have h2 : (hs_getnameinfo osR wr qr).1
      = uv__getaddrinfo_translate_error (osR qr).1 := rfl
  rw [h1, h2, h]

/-- Witness for C3 at concrete oracles both reporting the again code. -/
theorem forward_reverse_share_translation_witness :
    (hs_getaddrinfo (fun _ => (OSCode.codeAgain, none)) wInit qBoth).1
      = (hs_getnameinfo (fun _ => (OSCode.codeAgain, [], [])) wInit rqLoop).1 :=
  forward_reverse_share_translation _ _ _ _ _ _ rfl

/-- Claim C4: whenever the OS resolver leaves an absent chain on every
outcome that does not normalize to success, a failing hs_getaddrinfo call
hands back an absent address chain in the res cell. -/
theorem hs_getaddrinfo_fail_empty (os : ForwardOS) (w : World)
    (q : ForwardQuery)
    (hos : uv__getaddrinfo_translate_error (os q).1 ≠ Status.success →
      (os q).2 = none)
    (hfail : (hs_getaddrinfo os w q).1 ≠ Status.success) :
    (hs_getaddrinfo os w q).2.resCell = none := by
  have h1 : (hs_getaddrinfo os w q).1
      = uv__getaddrinfo_translate_error (os q).1 := rfl
  have h2 : (hs_getaddrinfo os w q).2.resCell = (os q).2 := rfl
  rw [h2]
  exact hos (fun hc => hfail (h1.trans hc))

/-- Witness for C4 at a concrete failing oracle that stores no chain. -/
theorem hs_getaddrinfo_fail_empty_witness :
    (hs_getaddrinfo (fun _ => (OSCode.codeNoName, none)) wInit qBoth).2.resCell
      = none :=
  hs_getaddrinfo_fail_empty _ wInit qBoth (fun _ => rfl) (by decide)

/-- Claim C5: when the host buffer capacity is below the resolved name
length, so that the OS reverse resolver reports the overflow code and
writes only within the stated capacities, hs_getnameinfo returns the
buffer-too-small status and the memory past each capacity is unchanged. -/
theorem hs_getnameinfo_buffer_too_small (os : ReverseOS) (w : World)
    (q : ReverseQuery) (nameLen : Nat)
    (hsmall : q.hostCap < nameLen)
    (hcode : q.hostCap < nameLen → (os q).1 = OSCode.codeOverflow)
    (hhost : (os q).2.1.length ≤ q.hostCap)
    (hserv : (os q).2.2.length ≤ q.servCap) :
    (hs_getnameinfo os w q).1 = Status.bufferTooSmall ∧
    ((hs_getnameinfo os w q).2.hostMem).drop q.hostCap
      = w.hostMem.drop q.hostCap ∧
    ((hs_getnameinfo os w q).2.servMem).drop q.servCap
      = w.servMem.drop q.servCap := by
  have h1 : (hs_getnameinfo os w q).1
      = uv__getaddrinfo_translate_error (os q).1 := rfl
  have h2 : (hs_getnameinfo os w q).2.hostMem = writeBytes (os q).2.1 w.hostMem := rfl
  have h3 : (hs_getnameinfo os w q).2.servMem = writeBytes (os q).2.2 w.servMem := rfl
  refine ⟨?_, ?_, ?_⟩
  · rw [h1, hcode hsmall]; rfl
  · rw [h2, writeBytes_drop _ _ _ hhost]
  · rw [h3, writeBytes_drop _ _ _ hserv]

/-- Witness for C5 at a capacity 2 host buffer and a name of length 10. -/
theorem hs_getnameinfo_buffer_too_small_witness :
    (hs_getnameinfo osROverflow wInit rqSmall).1 = Status.bufferTooSmall ∧
    ((hs_getnameinfo osROverflow wInit rqSmall).2.hostMem).drop rqSmall.hostCap
      = wInit.hostMem.drop rqSmall.hostCap ∧
    ((hs_getnameinfo osROverflow wInit rqSmall).2.servMem).drop rqSmall.servCap
      = wInit.servMem.drop rqSmall.servCap :=
  hs_getnameinfo_buffer_too_small osROverflow wInit rqSmall 10
    (by decide) (fun _ => rfl) (by decide) (by decide)

/-- Claim C6: hs_getnameinfo performs no dynamic allocation and writes
only the two caller buffers: the live allocation count, the res cell and
the forward log are unchanged, each buffer is filled in place with
exactly the OS-written bytes, and when the OS writes within the stated
capacities nothing past either capacity changes; the call returns only a
status code. -/
theorem hs_getnameinfo_no_alloc_frame (os : ReverseOS) (w : World)
    (q : ReverseQuery)
    (hhost : (os q).2.1.length ≤ q.hostCap)
    (hserv : (os q).2.2.length ≤ q.servCap) :
    (hs_getnameinfo os w q).2.allocs = w.allocs ∧
    (hs_getnameinfo os w q).2.resCell = w.resCell ∧
    (hs_getnameinfo os w q).2.forwardCalls = w.forwardCalls ∧
    (hs_getnameinfo os w q).2.hostMem = writeBytes (os q).2.1 w.hostMem ∧
    (hs_getnameinfo os w q).2.servMem = writeBytes (os q).2.2 w.servMem ∧
    ((hs_getnameinfo os w q).2.hostMem).drop q.hostCap
      = w.hostMem.drop q.hostCap ∧
    ((hs_getnameinfo os w q).2.servMem).drop q.servCap
      = w.servMem.drop q.servCap :=
  ⟨rfl, rfl, rfl, rfl, rfl,
   writeBytes_drop _ _ _ hhost, writeBytes_drop _ _ _ hserv⟩

/-- Witness for C6 at a successful concrete reverse lookup. -/
theorem hs_getnameinfo_no_alloc_frame_witness :
    (hs_getnameinfo (fun _ => (OSCode.ok, [104, 0], [115, 0])) wInit
        rqLoop).2.allocs = wInit.allocs ∧
    (hs_getnameinfo (fun _ => (OSCode.ok, [104, 0], [115, 0])) wInit
        rqLoop).2.resCell = wInit.resCell ∧
    (hs_getnameinfo (fun _ => (OSCode.ok, [104, 0], [115, 0])) wInit
        rqLoop).2.forwardCalls = wInit.forwardCalls ∧
    (hs_getnameinfo (fun _ => (OSCode.ok, [104, 0], [115, 0])) wInit
        rqLoop).2.hostMem = writeBytes [104, 0] wInit.hostMem ∧
    (hs_getnameinfo (fun _ => (OSCode.ok, [104, 0], [115, 0])) wInit
        rqLoop).2.servMem = writeBytes [115, 0] wInit.servMem ∧
    ((hs_getnameinfo (fun _ => (OSCode.ok, [104, 0], [115, 0])) wInit
        rqLoop).2.hostMem).drop rqLoop.hostCap
      = wInit.hostMem.drop rqLoop.hostCap ∧
    ((hs_getnameinfo (fun _ => (OSCode.ok, [104, 0], [115, 0])) wInit
        rqLoop).2.servMem).drop rqLoop.servCap
      = wInit.servMem.drop rqLoop.servCap :=
  hs_getnameinfo_no_alloc_frame _ wInit rqLoop (by decide) (by decide)

/-- Claim C7: the normalized status is a deterministic function of the
OS-reported code alone: two calls of either operation under the same
simulated OS failure return the same normalized status, whatever the
world, query or oracle. -/
theorem status_deterministic (osF osG : ForwardOS) (osR osS : ReverseOS)
    (w1 w2 w3 w4 : World) (q1 q2 : ForwardQuery) (r1 r2 : ReverseQuery)
    (hf : (osF q1).1 = (osG q2).1) (hr : (osR r1).1 = (osS r2).1) :
    (hs_getaddrinfo osF w1 q1).1 = (hs_getaddrinfo osG w2 q2).1 ∧
    (hs_getnameinfo osR w3 r1).1 = (hs_getnameinfo osS w4 r2).1 := by
  constructor
  · show uv__getaddrinfo_translate_error (osF q1).1
      = uv__getaddrinfo_translate_error (osG q2).1
    rw [hf]
  · show uv__getaddrinfo_translate_error (osR r1).1
      = uv__getaddrinfo_translate_error (osS r2).1
    rw [hr]

/-- Witness for C7 at two distinct worlds and queries under the same
simulated failure code. -/
theorem status_deterministic_witness :
    (hs_getaddrinfo (fun _ => (OSCode.codeFail, none)) wInit qBoth).1
      = (hs_getaddrinfo (fun _ => (OSCode.codeFail, some [])) wInit
          ⟨some "a", none, none⟩).1 ∧
    (hs_getnameinfo (fun _ => (OSCode.codeFail, [], [])) wInit rqLoop).1
      = (hs_getnameinfo (fun _ => (OSCode.codeFail, [0], [0])) wInit
          rqSmall).1 :=
  status_deterministic _ _ _ _ wInit wInit wInit wInit qBoth
    ⟨some "a", none, none⟩ rqLoop rqSmall rfl rfl

/-- Claim C8: hs_getaddrinfo validates nothing: for every node, service
and hints, including the case where node and service are both null, the
arguments are handed to the OS call verbatim, exactly as received. -/
theorem hs_getaddrinfo_no_validation (os : ForwardOS) (w : World)
    (node service : Option String) (hints : Option Hints) :
    (hs_getaddrinfo os w ⟨node, service, hints⟩).2.forwardCalls
      = w.forwardCalls ++ [⟨node, service, hints⟩] ∧
    (hs_getaddrinfo os w ⟨none, none, hints⟩).2.forwardCalls
      = w.forwardCalls ++ [⟨none, none, hints⟩] :=
  ⟨rfl, rfl⟩

/-- Claim C9: the scoped owning handle around the forward result chain
releases on every exit path: for every OS outcome, including failures,
after withAddrInfo the live allocation count is back to its initial value
and the res cell is cleared, leaving no release obligation pending. -/
theorem withAddrInfo_releases {β : Type} (os : ForwardOS) (w : World)
    (q : ForwardQuery) (use : Status → Option AddrChain → β) :
    (withAddrInfo os w q use).2.allocs = w.allocs ∧
    (withAddrInfo os w q use).2.resCell = none := by
  unfold withAddrInfo freeaddrinfo hs_getaddrinfo getaddrinfo
  cases h : (os q).2 <;> simp [h]

/-- Claim C10: the adapter adds nothing around the OS call: the world
after hs_getaddrinfo is exactly the world after the underlying
getaddrinfo call, so the res cell holds exactly what the OS left there on
every path, with no adapter-side cleanup or clearing. -/
theorem hs_getaddrinfo_world_eq_os (os : ForwardOS) (w : World)
    (q : ForwardQuery) :
    (hs_getaddrinfo os w q).2 = (getaddrinfo os w q).2 ∧
    (hs_getaddrinfo os w q).2.resCell = (os q).2 :=
  ⟨rfl, rfl⟩

end HsUvDns
